import Mathlib

/-!
Shallow embedding of `src/backend/services/openai_service.py` (the
outbound-request orchestration component of the NomoraPaw backend):
error taxonomy, response parsing, cache, configuration validation,
request dispatch with retry, and the service facade
(`generate_pet_names`, `health_check`), together with theorems that
settle the specification claims about that component.

Modelling conventions:
* Python exceptions become the inductive `PyExc`; fallible code returns
  `Except PyExc _`.
* Python strings are processed as `List Char` (code points), matching
  CPython's `str` semantics for the operations the service uses.
* Wall-clock time (`time.time()`) is an explicit `Nat` parameter `now`;
  timestamps are `Nat` seconds.  For the TTL comparison
  `now - timestamp < 3600` truncated `Nat` subtraction gives the same
  verdict as Python float arithmetic whenever time is monotone.
* The remote HTTP endpoint is an environment `Nat → AttemptOutcome`
  giving the outcome the network would produce for the i-th attempt.
* `json.loads` is modelled by an executable recursive-descent JSON
  parser (`json_loads`).  Deviations that no claim depends on: error
  message texts are abbreviated, `NaN`/`Infinity` literals and
  surrogate-pair `\uXXXX` escapes are rejected rather than accepted.
-/

/-- Exception taxonomy of the service module.  `valueError` is Python's
builtin `ValueError` (local validation / configuration errors);
`httpxRequestError` is `httpx.RequestError` (network failure);
`retryError` is tenacity's `RetryError` wrapping the last attempt's
exception after the retry budget is exhausted; the remaining
constructors are the module's `OpenRouterError` hierarchy. -/
inductive PyExc where
  | valueError (msg : String)
  | authenticationError (msg : String)
  | rateLimitError (msg : String)
  | quotaExceededError (msg : String)
  | modelError (msg : String)
  | openRouterError (msg : String)
  | httpxRequestError (msg : String)
  | retryError (last : PyExc)
deriving DecidableEq

/-- `PetNameResult` dataclass: one generated name with its reason. -/
structure PetNameResult where
  name : String
  reason : String
deriving DecidableEq

/-- Characters Python's `str.strip()` removes (ASCII whitespace;
the rarely used extra Unicode space characters are not modelled). -/
def isPySpace (c : Char) : Bool :=
  c = ' ' || c = '\t' || c = '\n' || c = '\r' || c = '\x0b' || c = '\x0c'

/-- Python `str.strip()` on a code-point list. -/
def pyStripList (cs : List Char) : List Char :=
  ((cs.dropWhile isPySpace).reverse.dropWhile isPySpace).reverse

/-- Python `str.strip()`. -/
def pyStrip (s : String) : String :=
  (pyStripList s.toList).asString

/-- JSON values as produced by `json.loads`.  Numbers keep their source
lexeme (no claim inspects numeric values). -/
inductive Json where
  | null
  | bool (b : Bool)
  | num (lexeme : String)
  | str (s : String)
  | arr (elems : List Json)
  | obj (members : List (String × Json))

/-- Insert into a Python-`dict`-like association list: replace the value
in place when the key exists, otherwise append (insertion order kept). -/
def dictInsert (ms : List (String × Json)) (k : String) (v : Json) :
    List (String × Json) :=
  match ms with
  | [] => [(k, v)]
  | (k1, v1) :: rest =>
    if k1 = k then (k1, v) :: rest else (k1, v1) :: dictInsert rest k v

/-- Key lookup in a `dict`-like association list (`item["name"]`,
`"name" in item`). -/
def dictLookup (ms : List (String × Json)) (k : String) : Option Json :=
  match ms with
  | [] => none
  | (k1, v1) :: rest => if k1 = k then some v1 else dictLookup rest k

/-- JSON insignificant whitespace. -/
def isJsonWs (c : Char) : Bool :=
  c = ' ' || c = '\t' || c = '\n' || c = '\r'

/-- Skip insignificant whitespace. -/
def skipJsonWs (cs : List Char) : List Char :=
  cs.dropWhile isJsonWs

/-- Value of one hexadecimal digit. -/
def hexVal (c : Char) : Option Nat :=
  if '0' ≤ c ∧ c ≤ '9' then some (c.toNat - 48)
  else if 'a' ≤ c ∧ c ≤ 'f' then some (c.toNat - 87)
  else if 'A' ≤ c ∧ c ≤ 'F' then some (c.toNat - 55)
  else none

/-- Parse the body of a JSON string literal (the opening quote already
consumed), accumulating decoded characters in reverse in `acc`. -/
def parseJStringBody : List Char → List Char → Except String (String × List Char)
  | [], _ => .error "Unterminated string"
  | c :: rest, acc =>
    if c = '"' then .ok (acc.reverse.asString, rest)
    else if c = '\\' then
      match rest with
      | [] => .error "Unterminated string escape"
      | e :: rest2 =>
        if e = '"' then parseJStringBody rest2 ('"' :: acc)
        else if e = '\\' then parseJStringBody rest2 ('\\' :: acc)
        else if e = '/' then parseJStringBody rest2 ('/' :: acc)
        else if e = 'b' then parseJStringBody rest2 ('\x08' :: acc)
        else if e = 'f' then parseJStringBody rest2 ('\x0c' :: acc)
        else if e = 'n' then parseJStringBody rest2 ('\n' :: acc)
        else if e = 'r' then parseJStringBody rest2 ('\x0d' :: acc)
        else if e = 't' then parseJStringBody rest2 ('\t' :: acc)
        else if e = 'u' then
          match rest2 with
          | h1 :: h2 :: h3 :: h4 :: rest3 =>
            match hexVal h1, hexVal h2, hexVal h3, hexVal h4 with
            | some a, some b, some c2, some d =>
              let code := ((a * 16 + b) * 16 + c2) * 16 + d
              if 0xd800 ≤ code ∧ code < 0xe000 then
                .error "Surrogate escapes not supported"
              else parseJStringBody rest3 (Char.ofNat code :: acc)
            | _, _, _, _ => .error "Invalid hex escape"
          | _ => .error "Invalid hex escape"
        else .error "Invalid escape"
    else if c.toNat < 0x20 then .error "Invalid control character"
    else parseJStringBody rest (c :: acc)

/-- Parse an optional exponent part and finish a number token whose
digits so far are `lexSoFar`. -/
def parseNumTail (lexSoFar : List Char) (cs : List Char) :
    Except String (Json × List Char) :=
  match cs with
  | c :: r =>
    if c = 'e' ∨ c = 'E' then
      let (sgn, r1) :=
        match r with
        | s :: r2 => if s = '+' ∨ s = '-' then ([s], r2) else (([] : List Char), r)
        | [] => ([], r)
      let (ds, r2) := r1.span (fun x => x.isDigit)
      if ds.isEmpty then .error "Expecting digit in exponent"
      else .ok (.num (lexSoFar ++ c :: (sgn ++ ds)).asString, r2)
    else .ok (.num lexSoFar.asString, cs)
  | [] => .ok (.num lexSoFar.asString, cs)

/-- Parse a JSON number token (sign, integer part, optional fraction,
optional exponent). -/
def parseNumber (cs : List Char) : Except String (Json × List Char) :=
  let (sign, cs1) :=
    match cs with
    | c :: r => if c = '-' then (['-'], r) else (([] : List Char), cs)
    | [] => ([], cs)
  match cs1 with
  | [] => .error "Expecting value"
  | d :: rest1 =>
    if d.isDigit then
      let (intDigits, cs2) :=
        if d = '0' then ([d], rest1) else cs1.span (fun c => c.isDigit)
      match cs2 with
      | '.' :: r =>
        let (ds, cs3) := r.span (fun c => c.isDigit)
        if ds.isEmpty then .error "Expecting digit in fraction"
        else parseNumTail (sign ++ intDigits ++ '.' :: ds) cs3
      | _ => parseNumTail (sign ++ intDigits) cs2
    else .error "Expecting value"

mutual

/-- Recursive-descent parser for one JSON value (model of the grammar
accepted by `json.loads`), with explicit fuel. -/
def parseValue : Nat → List Char → Except String (Json × List Char)
  | 0, _ => .error "Out of fuel"
  | fuel + 1, cs =>
    match skipJsonWs cs with
    | 'n' :: 'u' :: 'l' :: 'l' :: rest => .ok (.null, rest)
    | 't' :: 'r' :: 'u' :: 'e' :: rest => .ok (.bool true, rest)
    | 'f' :: 'a' :: 'l' :: 's' :: 'e' :: rest => .ok (.bool false, rest)
    | '"' :: rest =>
      match parseJStringBody rest [] with
      | .ok (s, r) => .ok (.str s, r)
      | .error e => .error e
    | '[' :: rest =>
      match skipJsonWs rest with
      | ']' :: r2 => .ok (.arr [], r2)
      | cs2 => parseElems fuel cs2 []
    | '\x7b' :: rest =>
      match skipJsonWs rest with
      | '\x7d' :: r2 => .ok (.obj [], r2)
      | cs2 => parseMembers fuel cs2 []
    | cs1 => parseNumber cs1

/-- Parse the remaining elements of a non-empty JSON array
(accumulated in reverse in `acc`). -/
def parseElems : Nat → List Char → List Json → Except String (Json × List Char)
  | 0, _, _ => .error "Out of fuel"
  | fuel + 1, cs, acc =>
    match parseValue fuel cs with
    | .error e => .error e
    | .ok (v, rest) =>
      match skipJsonWs rest with
      | ',' :: r2 => parseElems fuel r2 (v :: acc)
      | ']' :: r2 => .ok (.arr (v :: acc).reverse, r2)
      | _ => .error "Expecting comma or close bracket"

/-- Parse the remaining members of a non-empty JSON object, building a
`dict` (later duplicate keys overwrite earlier ones in place). -/
def parseMembers : Nat → List Char → List (String × Json) →
    Except String (Json × List Char)
  | 0, _, _ => .error "Out of fuel"
  | fuel + 1, cs, acc =>
    match skipJsonWs cs with
    | '"' :: rest =>
      match parseJStringBody rest [] with
      | .error e => .error e
      | .ok (k, r1) =>
        match skipJsonWs r1 with
        | ':' :: r2 =>
          match parseValue fuel r2 with
          | .error e => .error e
          | .ok (v, r3) =>
            match skipJsonWs r3 with
            | ',' :: r4 => parseMembers fuel r4 (dictInsert acc k v)
            | '\x7d' :: r4 => .ok (.obj (dictInsert acc k v), r4)
            | _ => .error "Expecting comma or close brace"
        | _ => .error "Expecting colon"
    | _ => .error "Expecting property name"

end

/-- Model of `json.loads` on a code-point list: parse exactly one JSON
value surrounded only by whitespace. -/
def json_loads (cs : List Char) : Except String Json :=
  match parseValue (2 * cs.length + 4) cs with
  | .error e => .error e
  | .ok (v, rest) =>
    if (skipJsonWs rest).isEmpty then .ok v else .error "Extra data"

mutual

/-- Python `repr` of a JSON-decoded value (used by `str` on non-string
values).  String quoting is simplified to plain quotes; no claim
depends on `repr` of containers or numbers. -/
def pyRepr : Json → String
  | .null => "None"
  | .bool true => "True"
  | .bool false => "False"
  | .num lexeme => lexeme
  | .str s => "\x27" ++ s ++ "\x27"
  | .arr xs => "[" ++ String.intercalate ", " (pyReprList xs) ++ "]"
  | .obj ms => "\x7b" ++ String.intercalate ", " (pyReprMembers ms) ++ "\x7d"

/-- `repr` of each element of a JSON array. -/
def pyReprList : List Json → List String
  | [] => []
  | x :: xs => pyRepr x :: pyReprList xs

/-- `repr` of each member of a JSON object. -/
def pyReprMembers : List (String × Json) → List String
  | [] => []
  | (k, v) :: ms => ("\x27" ++ k ++ "\x27: " ++ pyRepr v) :: pyReprMembers ms

end

/-- Python `str(x)` for a JSON-decoded value. -/
def pyStr (j : Json) : String :=
  match j with
  | .str s => s
  | _ => pyRepr j

/-- The loop body of `_parse_response`: walk the decoded array and keep
one `PetNameResult` (both fields `str(...)` -ed and stripped) for each
element that is a `dict` containing both a `"name"` and a `"reason"`
key, skipping every other element. -/
def extractResults : List Json → List PetNameResult
  | [] => []
  | item :: rest =>
    match item with
    | .obj members =>
      match dictLookup members "name", dictLookup members "reason" with
      | some nv, some rv =>
        ⟨pyStrip (pyStr nv), pyStrip (pyStr rv)⟩ :: extractResults rest
      | _, _ => extractResults rest
    | _ => extractResults rest

/-- The clean-up prefix of `_parse_response`: strip whitespace, drop a
leading 7-character ```` ```json ```` fence and a trailing 3-character
```` ``` ```` fence when present, strip again. -/
def stripCodeFences (cs : List Char) : List Char :=
  let cs1 := pyStripList cs
  let cs2 := if ("```json".toList).isPrefixOf cs1 then cs1.drop 7 else cs1
  let cs3 := if ("```".toList).isSuffixOf cs2 then cs2.take (cs2.length - 3) else cs2
  pyStripList cs3

/-- `_parse_response`: clean the raw model reply, parse it as JSON,
require a list, keep the qualifying `(name, reason)` entries, and fail
with `ModelError` when parsing fails or no entry qualifies. -/
def parse_response (content : String) : Except PyExc (List PetNameResult) :=
  match json_loads (stripCodeFences content.toList) with
  | .error e =>
    .error (.modelError ("Failed to parse AI response as JSON: " ++ e))
  | .ok (.arr items) =>
    if (extractResults items).isEmpty then
      .error (.modelError
        ("Failed to parse AI response: " ++ "No valid names found in response"))
    else .ok (extractResults items)
  | .ok _ =>
    .error (.modelError
      ("Failed to parse AI response: " ++ "Response is not a valid list"))

/-- Lexicographic (code-point) comparison on code-point lists, the order
Python's `sorted` uses on `str`. -/
def listCharLe : List Char → List Char → Bool
  | [], _ => true
  | _ :: _, [] => false
  | a :: as_, b :: bs =>
    if a < b then true else if b < a then false else listCharLe as_ bs

/-- Python's `<=` on strings, as a proposition. -/
def strLe (a b : String) : Prop := listCharLe a.toList b.toList = true

instance : DecidableRel strLe :=
  fun a b => inferInstanceAs (Decidable (listCharLe a.toList b.toList = true))

/-- Python `sorted` on a list of strings. -/
def pySorted (l : List String) : List String :=
  List.insertionSort strLe l

/-- One cache slot: the generated results plus the `time.time()` stamp
recorded by `_save_to_cache`. -/
structure CacheEntry where
  data : List PetNameResult
  timestamp : Nat
deriving DecidableEq

/-- `self.cache`, a `dict` keyed by the fingerprint string. -/
abbrev Cache := List (String × CacheEntry)

/-- Cache dictionary lookup (`cache_key in self.cache`). -/
def cacheFind (c : Cache) (k : String) : Option CacheEntry :=
  match c with
  | [] => none
  | (k1, e) :: rest => if k1 = k then some e else cacheFind rest k

/-- Cache dictionary update (`self.cache[cache_key] = ...`): replace in
place or append. -/
def cacheInsert (c : Cache) (k : String) (e : CacheEntry) : Cache :=
  match c with
  | [] => [(k, e)]
  | (k1, e1) :: rest =>
    if k1 = k then (k1, e) :: rest else (k1, e1) :: cacheInsert rest k e

/-- Cache dictionary deletion (`del self.cache[cache_key]`). -/
def cacheErase (c : Cache) (k : String) : Cache :=
  match c with
  | [] => []
  | (k1, e1) :: rest =>
    if k1 = k then rest else (k1, e1) :: cacheErase rest k

/-- `self._cache_ttl`: one hour. -/
def cache_ttl : Nat := 3600

/-- `_is_cache_valid`: the entry is younger than the TTL. -/
def is_cache_valid (now : Nat) (entry : CacheEntry) : Bool :=
  now - entry.timestamp < cache_ttl

/-- `_get_from_cache`: return valid cached data; delete an expired
entry as a side effect and report a miss.  Returns the looked-up value
together with the possibly changed cache. -/
def get_from_cache (c : Cache) (key : String) (now : Nat) :
    Option (List PetNameResult) × Cache :=
  match cacheFind c key with
  | some entry =>
    if is_cache_valid now entry then (some entry.data, c)
    else (none, cacheErase c key)
  | none => (none, c)

/-- `_save_to_cache`: store results under the fingerprint with the
current timestamp. -/
def save_to_cache (c : Cache) (key : String) (data : List PetNameResult)
    (now : Nat) : Cache :=
  cacheInsert c key ⟨data, now⟩

/-- `_get_cache_key`: animal, traits sorted and comma-joined, theme and
count joined with colons. -/
def get_cache_key (animal : String) (traits : List String) (theme : String)
    (num_names : Int) : String :=
  let traits_str := String.intercalate "," (pySorted traits)
  animal ++ ":" ++ traits_str ++ ":" ++ theme ++ ":" ++ toString num_names

/-- `Environment` enum of the service module. -/
inductive Environment where
  | development
  | staging
  | production
deriving DecidableEq

/-- `.value` of the `Environment` enum. -/
def Environment.value : Environment → String
  | .development => "development"
  | .staging => "staging"
  | .production => "production"

/-- `OpenRouterConfig` dataclass with its field defaults.  The float
fields are modelled as rationals. -/
structure OpenRouterConfig where
  api_key : String
  model : String := "openai/gpt-oss-20b:free"
  max_tokens : Int := 1000
  temperature : Rat := 0.8
  top_p : Rat := 0.9
  timeout : Rat := 30.0
  max_retries : Int := 3
  base_url : String := "https://openrouter.ai/api/v1"
  environment : Environment := .production
  site_url : String := "https://nomora-paw.netlify.app"
  app_name : String := "NomoraPaw"

/-- The environment variables `_create_config_from_env` reads.  Numeric
variables are modelled already converted to their numeric type; the
`int(...)`/`float(...)` conversion failures of unparseable variable
text are outside every claim and not modelled. -/
structure EnvInput where
  openrouter_api_key : Option String := none
  environment_tag : Option String := none
  openrouter_model : Option String := none
  openrouter_max_tokens : Option Int := none
  openrouter_temperature : Option Rat := none
  openrouter_top_p : Option Rat := none
  openrouter_timeout : Option Rat := none
  openrouter_max_retries : Option Int := none
  openrouter_site_url : Option String := none
  openrouter_app_name : Option String := none

/-- Python `str.lower()` (ASCII case folding). -/
def pyLower (s : String) : String :=
  (s.toList.map Char.toLower).asString

/-- `Environment(env_name)` with the module's `except ValueError`
fallback to production. -/
def parseEnvTag (s : String) : Environment :=
  if s = "development" then .development
  else if s = "staging" then .staging
  else if s = "production" then .production
  else .production

/-- `_create_config_from_env`: fail with `ValueError` when the
credential variable is absent or empty, otherwise build the
configuration from the environment with the documented defaults. -/
def create_config_from_env (env : EnvInput) : Except PyExc OpenRouterConfig :=
  let missing : Except PyExc OpenRouterConfig :=
    .error (.valueError
      ("OPENROUTER_API_KEY environment variable is required. " ++
        "Please set it with your OpenRouter API key."))
  match env.openrouter_api_key with
  | none => missing
  | some k =>
    if k = "" then missing
    else
      .ok
        { api_key := k
          model := env.openrouter_model.getD "openai/gpt-oss-20b:free"
          max_tokens := env.openrouter_max_tokens.getD 1000
          temperature := env.openrouter_temperature.getD 0.8
          top_p := env.openrouter_top_p.getD 0.9
          timeout := env.openrouter_timeout.getD 30.0
          max_retries := env.openrouter_max_retries.getD 3
          environment := parseEnvTag (pyLower (env.environment_tag.getD "production"))
          site_url := env.openrouter_site_url.getD "https://nomora-paw.netlify.app"
          app_name := env.openrouter_app_name.getD "NomoraPaw" }

/-- `_validate_config`: reject an empty credential and out-of-range
sampling or token parameters with `ValueError`. -/
def validate_config (c : OpenRouterConfig) : Except PyExc Unit :=
  if c.api_key = "" then
    .error (.valueError "OpenRouter API key is required")
  else if c.temperature < 0 ∨ c.temperature > 2 then
    .error (.valueError "Temperature must be between 0 and 2")
  else if c.top_p < 0 ∨ c.top_p > 1 then
    .error (.valueError "Top_p must be between 0 and 1")
  else if c.max_tokens < 1 ∨ c.max_tokens > 4096 then
    .error (.valueError "Max_tokens must be between 1 and 4096")
  else .ok ()

/-- `OpenRouterService.__init__` with an explicit configuration object:
validate it before the service exists. -/
def service_init_with (c : OpenRouterConfig) : Except PyExc OpenRouterConfig :=
  match validate_config c with
  | .error e => .error e
  | .ok _ => .ok c

/-- `OpenRouterService.__init__` without a configuration object: build
the configuration from the environment, then validate it; any failure
raises before the service exists. -/
def service_init (env : EnvInput) : Except PyExc OpenRouterConfig :=
  match create_config_from_env env with
  | .error e => .error e
  | .ok c => service_init_with c

/-- What the network would produce for one outbound HTTP attempt:
a 200 response with a well-formed envelope carrying `content`, a
non-200 response (with the message `_handle_api_error` extracts from
its body), or an `httpx.RequestError` raised during the request. -/
inductive AttemptOutcome where
  | success (content : String)
  | httpError (status : Nat) (msg : String)
  | networkError (msg : String)

/-- `_handle_api_error`: map a non-200 status to the module's error
taxonomy. -/
def handle_api_error (status : Nat) (msg : String) : PyExc :=
  if status = 401 then .authenticationError ("Authentication failed: " ++ msg)
  else if status = 429 then .rateLimitError ("Rate limit exceeded: " ++ msg)
  else if status = 402 then .quotaExceededError ("Quota exceeded: " ++ msg)
  else if 400 ≤ status ∧ status < 500 then .modelError ("Client error: " ++ msg)
  else .openRouterError ("Server error: " ++ msg)

/-- One execution of the body of `_make_api_request`: a non-200 status
raises through `_handle_api_error`; an `httpx.RequestError` is caught
by the function's `except` clause and re-raised as
`OpenRouterError("Network error: ...")`. -/
def api_request_body (o : AttemptOutcome) : Except PyExc String :=
  match o with
  | .success content => .ok content
  | .httpError status msg => .error (handle_api_error status msg)
  | .networkError msg => .error (.openRouterError ("Network error: " ++ msg))

/-- The retry predicate the `tenacity` decorator on `_make_api_request`
declares: `retry_if_exception_type((httpx.RequestError, RateLimitError))`. -/
def tenacityRetryable (e : PyExc) : Bool :=
  match e with
  | .httpxRequestError _ => true
  | .rateLimitError _ => true
  | _ => false

/-- The `tenacity` retry loop with `stop_after_attempt` semantics:
run the body; re-raise a non-retryable exception at once; retry a
retryable one while attempts remain, else raise `RetryError` around it.
Returns the outcome together with the number of attempts made.
`attempt` is the 1-based attempt counter, `fuel` the retries left. -/
def tenacityLoop (env : Nat → AttemptOutcome) :
    Nat → Nat → Except PyExc String × Nat
  | attempt, fuel =>
    match api_request_body (env attempt) with
    | .ok content => (.ok content, attempt)
    | .error e =>
      if tenacityRetryable e then
        match fuel with
        | 0 => (.error (.retryError e), attempt)
        | f + 1 => tenacityLoop env (attempt + 1) f
      else (.error e, attempt)

/-- `_make_api_request` as decorated: `stop_after_attempt(3)`, so at
most three attempts.  (The backoff waits between attempts do not change
which outcome is returned and are not modelled.) -/
def make_api_request (env : Nat → AttemptOutcome) : Except PyExc String × Nat :=
  tenacityLoop env 1 2

/-- A dynamically typed argument of `generate_pet_names`, as far as its
`isinstance` checks can distinguish them. -/
inductive PyValue where
  | vStr (s : String)
  | vInt (n : Int)
  | vList (xs : List String)
  | vNone
deriving DecidableEq

/-- The input-validation prefix of `generate_pet_names`: animal must be
a non-empty string, traits a list, `num_names` an int within `[1, 10]`,
each violation raising `ValueError`. -/
def validate_inputs (animal traits num_names : PyValue) :
    Except PyExc (String × List String × Int) :=
  match animal with
  | .vStr a =>
    if a = "" then
      .error (.valueError "Animal type is required and must be a string")
    else
      match traits with
      | .vList ts =>
        match num_names with
        | .vInt n =>
          if n < 1 ∨ n > 10 then
            .error (.valueError "Number of names must be between 1 and 10")
          else .ok (a, ts, n)
        | _ => .error (.valueError "Number of names must be between 1 and 10")
      | _ => .error (.valueError "Traits must be a list")
  | _ => .error (.valueError "Animal type is required and must be a string")

instance {ε α : Type} [DecidableEq ε] [DecidableEq α] :
    DecidableEq (Except ε α) := fun a b =>
  match a, b with
  | .ok x, .ok y =>
    if h : x = y then isTrue (by rw [h]) else isFalse (by simp [h])
  | .error x, .error y =>
    if h : x = y then isTrue (by rw [h]) else isFalse (by simp [h])
  | .ok _, .error _ => isFalse (by simp)
  | .error _, .ok _ => isFalse (by simp)

/-- Observable outcome of one `generate_pet_names` call: the returned
value or raised exception, the cache afterwards, and how many outbound
HTTP attempts were made (0 when no dispatch happened). -/
structure GenOutcome where
  result : Except PyExc (List PetNameResult)
  cache : Cache
  attempts : Nat
deriving DecidableEq

/-- The cache-miss tail of `generate_pet_names`: dispatch the request,
parse the reply, cache the parsed results; a raised exception is logged
and re-raised unchanged, leaving the cache `c2` as the lookup left it. -/
def gen_dispatch (c2 : Cache) (key : String) (now : Nat)
    (env : Nat → AttemptOutcome) : GenOutcome :=
  match make_api_request env with
  | (.error e, k) => ⟨.error e, c2, k⟩
  | (.ok content, k) =>
    match parse_response content with
    | .error e => ⟨.error e, c2, k⟩
    | .ok results => ⟨.ok results, save_to_cache c2 key results now, k⟩

/-- `generate_pet_names`: validate the inputs, consult the cache (an
expired entry is evicted by the lookup; a hit on a non-empty entry is
returned at once — `if cached_result:` is Python truthiness), otherwise
run the dispatch-parse-store tail `gen_dispatch`. -/
def generate_pet_names (c : Cache) (now : Nat) (env : Nat → AttemptOutcome)
    (animal traits : PyValue) (theme : String) (num_names : PyValue) :
    GenOutcome :=
  match validate_inputs animal traits num_names with
  | .error e => ⟨.error e, c, 0⟩
  | .ok (a, ts, n) =>
    match (get_from_cache c (get_cache_key a ts theme n) now).1 with
    | some cached =>
      if cached.isEmpty then
        gen_dispatch (get_from_cache c (get_cache_key a ts theme n) now).2
          (get_cache_key a ts theme n) now env
      else ⟨.ok cached, (get_from_cache c (get_cache_key a ts theme n) now).2, 0⟩
    | none =>
      gen_dispatch (get_from_cache c (get_cache_key a ts theme n) now).2
        (get_cache_key a ts theme n) now env

/-- Python `str(e)` of a service exception: the exception message.
(`str` of a tenacity `RetryError` is rendered schematically; no claim
depends on its exact text.) -/
def pyExcMsg : PyExc → String
  | .valueError m => m
  | .authenticationError m => m
  | .rateLimitError m => m
  | .quotaExceededError m => m
  | .modelError m => m
  | .openRouterError m => m
  | .httpxRequestError m => m
  | .retryError last => "RetryError: " ++ pyExcMsg last

/-- The status record `health_check` returns.  Fields absent from one of
the two record shapes in the code are `none`. -/
structure HealthRecord where
  status : String
  model : String
  environment : String
  cache_size : Option Nat := none
  test_successful : Option Bool := none
  error : Option String := none
deriving DecidableEq

/-- The record `health_check` builds from the probe's outcome: the
"healthy" shape with probe statistics on success, the "unhealthy" shape
with the captured exception text on failure. -/
def health_check_record (g : GenOutcome) (cfg : OpenRouterConfig) :
    HealthRecord × Cache :=
  match g.result with
  | .ok test_names =>
    ({ status := "healthy"
       model := cfg.model
       environment := cfg.environment.value
       cache_size := some g.cache.length
       test_successful := some (decide (test_names.length > 0)) }, g.cache)
  | .error e =>
    ({ status := "unhealthy"
       model := cfg.model
       environment := cfg.environment.value
       error := some (pyExcMsg e) }, g.cache)

/-- `health_check`: probe `generate_pet_names("dog", ["friendly"], "",
1)`; report "healthy" with the probe statistics on success, and catch
any exception into an "unhealthy" record instead of raising. -/
def health_check (c : Cache) (now : Nat) (env : Nat → AttemptOutcome)
    (cfg : OpenRouterConfig) : HealthRecord × Cache :=
  health_check_record
    (generate_pet_names c now env (.vStr "dog") (.vList ["friendly"]) "" (.vInt 1))
    cfg

/-- Cache states reachable from the fresh service (`self.cache = {}`)
by any sequence of `generate_pet_names` and `health_check` calls. -/
inductive Reachable : Cache → Prop where
  | init : Reachable []
  | gen (c : Cache) (now : Nat) (env : Nat → AttemptOutcome)
      (animal traits : PyValue) (theme : String) (num_names : PyValue) :
      Reachable c →
      Reachable (generate_pet_names c now env animal traits theme num_names).cache
  | health (c : Cache) (now : Nat) (env : Nat → AttemptOutcome)
      (cfg : OpenRouterConfig) :
      Reachable c → Reachable (health_check c now env cfg).2

/-- Every cache entry holds a non-empty result list. -/
def CacheInv (c : Cache) : Prop :=
  ∀ k e, cacheFind c k = some e → e.data ≠ []

/-- Membership form of the cache invariant, used in induction proofs
(it does not depend on key uniqueness). -/
def CacheMemInv (c : Cache) : Prop :=
  ∀ p, p ∈ c → (p : String × CacheEntry).2.data ≠ []

/-- The per-element selection of the parser, as §4.5 of the spec words
it: an element qualifies exactly when it is an object holding both a
`name` and a `reason` key, and then contributes one `NameResult` with
both values coerced to trimmed text.  Spec-side definition, for
comparison with the source-side `extractResults` loop. -/
def elemResult (j : Json) : Option PetNameResult :=
  match j with
  | .obj members =>
    match dictLookup members "name", dictLookup members "reason" with
    | some nv, some rv => some ⟨pyStrip (pyStr nv), pyStrip (pyStr rv)⟩
    | _, _ => none
  | _ => none

/-- The whole parser contract as §4.5 of the spec words it (spec-side
definition, for refinement comparison with `parse_response`): strip and
unfence, parse as JSON, require an array, keep one entry per qualifying
element, and fail with a Model classification on malformed JSON, on a
non-array, or on zero qualifying entries. -/
def parse_response_spec (content : String) : Except PyExc (List PetNameResult) :=
  match json_loads (stripCodeFences content.toList) with
  | .error e =>
    .error (.modelError ("Failed to parse AI response as JSON: " ++ e))
  | .ok (.arr items) =>
    if items.filterMap elemResult = [] then
      .error (.modelError
        ("Failed to parse AI response: " ++ "No valid names found in response"))
    else .ok (items.filterMap elemResult)
  | .ok _ =>
    .error (.modelError
      ("Failed to parse AI response: " ++ "Response is not a valid list"))

/-- A well-formed model reply wrapped in a markdown fence, used as the
concrete probe input of several claims. -/
def okJson : String := "```json\n[\x7b\"name\":\"Rex\",\"reason\":\"strong\"\x7d]\n```"

/-- A remote endpoint that always answers 200 with `okJson`. -/
def envOk : Nat → AttemptOutcome := fun _ => .success okJson

/-- A remote endpoint that always fails with a network error. -/
def envNet : Nat → AttemptOutcome := fun _ => .networkError "Connection refused"

/-- A remote endpoint that always answers HTTP 401. -/
def env401 : Nat → AttemptOutcome := fun _ => .httpError 401 "Invalid key"

/-- A remote endpoint whose first two attempts fail with a network
error and whose third attempt would succeed. -/
def envNetNetOk : Nat → AttemptOutcome := fun i =>
  if i ≤ 2 then .networkError "Connection refused" else .success okJson

/-- A remote endpoint whose first two attempts answer HTTP 429 and
whose third attempt succeeds. -/
def envRateRateOk : Nat → AttemptOutcome := fun i =>
  if i ≤ 2 then .httpError 429 "slow down" else .success okJson

/-- The cache after one successful `generate_pet_names` call against
`envOk` from the fresh service. -/
def exampleCache : Cache :=
  (generate_pet_names [] 0 envOk (.vStr "dog") (.vList ["friendly"]) "" (.vInt 1)).cache

theorem extractResults_eq_filterMap (l : List Json) :
    extractResults l = l.filterMap elemResult := by
  induction l with
  | nil => rfl
  | cons x xs ih =>
    cases x with
    | obj members =>
      cases h1 : dictLookup members "name" <;>
        cases h2 : dictLookup members "reason" <;>
          simp [extractResults, elemResult, h1, h2, ih, List.filterMap_cons]
    | null => simp [extractResults, elemResult, ih, List.filterMap_cons]
    | bool b => simp [extractResults, elemResult, ih, List.filterMap_cons]
    | num lexeme => simp [extractResults, elemResult, ih, List.filterMap_cons]
    | str s => simp [extractResults, elemResult, ih, List.filterMap_cons]
    | arr elems => simp [extractResults, elemResult, ih, List.filterMap_cons]

theorem parse_response_ok_ne_nil {content : String} {rs : List PetNameResult}
    (h : parse_response content = .ok rs) : rs ≠ [] := by
  unfold parse_response at h
  split at h
  · exact absurd h (by simp)
  · rename_i items
    split at h
    · exact absurd h (by simp)
    · rename_i hne
      cases h
      intro hnil
      rw [hnil] at hne
      exact hne rfl
  · exact absurd h (by simp)

theorem parse_response_error_is_modelError {content : String} {e : PyExc}
    (h : parse_response content = .error e) : ∃ m, e = .modelError m := by
  unfold parse_response at h
  split at h
  · cases h; exact ⟨_, rfl⟩
  · split at h
    · cases h; exact ⟨_, rfl⟩
    · exact absurd h (by simp)
  · cases h; exact ⟨_, rfl⟩

/-- C3: `_parse_response` strips whitespace and the markdown fences,
parses the remainder as a JSON array, and keeps exactly one trimmed
`PetNameResult` per array element that is an object with both a
`"name"` and a `"reason"` key, silently skipping the others — stated as
a refinement against the spec-side `parse_response_spec` — and on the
concrete fenced input it yields exactly `[⟨"Rex", "strong"⟩]`. -/
theorem c3_parse_round_trip_and_refinement :
    parse_response okJson = .ok [⟨"Rex", "strong"⟩]
    ∧ ∀ content, parse_response content = parse_response_spec content := by
  constructor
  · rfl
  · intro content
    unfold parse_response parse_response_spec
    cases hj : json_loads (stripCodeFences content.toList) with
    | error msg => rfl
    | ok j =>
      cases j with
      | arr items =>
        dsimp only
        rw [extractResults_eq_filterMap]
        cases hfm : items.filterMap elemResult with
        | nil => simp
        | cons a l => simp
      | null => rfl
      | bool b => rfl
      | num lexeme => rfl
      | str s => rfl
      | obj ms => rfl

/-- C4: `_parse_response` never returns an empty list successfully: on
every input it either fails with a `ModelError` (malformed JSON,
non-array, or zero qualifying entries) or returns a non-empty list. -/
theorem c4_parse_never_succeeds_empty :
    ∀ content : String,
      (∃ m, parse_response content = .error (.modelError m)) ∨
      (∃ rs, parse_response content = .ok rs ∧ rs ≠ []) := by
  intro content
  cases h : parse_response content with
  | error e =>
    obtain ⟨m, rfl⟩ := parse_response_error_is_modelError h
    exact Or.inl ⟨m, rfl⟩
  | ok rs => exact Or.inr ⟨rs, rfl, parse_response_ok_ne_nil h⟩

theorem listCharLe_total : ∀ a b : List Char,
    listCharLe a b = true ∨ listCharLe b a = true := by
  intro a
  induction a with
  | nil => intro b; left; rfl
  | cons x xs ih =>
    intro b
    cases b with
    | nil => right; rfl
    | cons y ys =>
      rcases lt_trichotomy x y with h | h | h
      · left; simp [listCharLe, h]
      · subst h
        simpa [listCharLe, lt_irrefl] using ih ys
      · right; simp [listCharLe, h]

theorem listCharLe_trans : ∀ a b c : List Char,
    listCharLe a b = true → listCharLe b c = true → listCharLe a c = true := by
  intro a
  induction a with
  | nil => intro b c h1 h2; rfl
  | cons x xs ih =>
    intro b c h1 h2
    cases b with
    | nil => simp [listCharLe] at h1
    | cons y ys =>
      cases c with
      | nil => simp [listCharLe] at h2
      | cons z zs =>
        simp only [listCharLe] at h1 h2 ⊢
        by_cases hxy : x < y
        · by_cases hyz : y < z
          · simp [lt_trans hxy hyz]
          · by_cases hzy : z < y
            · simp [hyz, hzy] at h2
            · have hyeq : y = z := le_antisymm (not_lt.mp hzy) (not_lt.mp hyz)
              subst hyeq
              simp [hxy]
        · by_cases hyx : y < x
          · simp [hxy, hyx] at h1
          · have hxeq : x = y := le_antisymm (not_lt.mp hyx) (not_lt.mp hxy)
            subst hxeq
            simp only [lt_irrefl, if_false] at h1 h2 ⊢
            by_cases hxz : x < z
            · simp [hxz]
            · by_cases hzx : z < x
              · simp [hxz, hzx] at h2
              · have hxz2 : x = z := le_antisymm (not_lt.mp hzx) (not_lt.mp hxz)
                subst hxz2
                simp only [lt_irrefl, if_false] at h2 ⊢
                exact ih ys zs h1 h2

theorem listCharLe_antisymm : ∀ a b : List Char,
    listCharLe a b = true → listCharLe b a = true → a = b := by
  intro a
  induction a with
  | nil =>
    intro b h1 h2
    cases b with
    | nil => rfl
    | cons y ys => simp [listCharLe] at h2
  | cons x xs ih =>
    intro b h1 h2
    cases b with
    | nil => simp [listCharLe] at h1
    | cons y ys =>
      simp only [listCharLe] at h1 h2
      by_cases hxy : x < y
      · by_cases hyx : y < x
        · exact absurd (lt_trans hxy hyx) (lt_irrefl x)
        · simp [hyx, hxy] at h2
      · by_cases hyx : y < x
        · simp [hxy, hyx] at h1
        · have hxeq : x = y := le_antisymm (not_lt.mp hyx) (not_lt.mp hxy)
          subst hxeq
          simp only [lt_irrefl, if_false] at h1 h2
          rw [ih ys h1 h2]

theorem pySorted_perm_eq {t1 t2 : List String} (h : t1.Perm t2) :
    pySorted t1 = pySorted t2 := by
  have htot : IsTotal String strLe :=
    ⟨fun a b => listCharLe_total a.toList b.toList⟩
  have htr : IsTrans String strLe :=
    ⟨fun a b c h1 h2 => listCharLe_trans a.toList b.toList c.toList h1 h2⟩
  have hanti : IsAntisymm String strLe :=
    ⟨fun a b h1 h2 =>
      String.ext (listCharLe_antisymm a.toList b.toList h1 h2)⟩
  exact @List.eq_of_perm_of_sorted _ strLe hanti _ _
    (((List.perm_insertionSort strLe t1).trans h).trans
      (List.perm_insertionSort strLe t2).symm)
    (@List.sorted_insertionSort _ strLe _ htot htr t1)
    (@List.sorted_insertionSort _ strLe _ htot htr t2)

/-- C5: the cache fingerprint is invariant under permutation of the
traits list, because `_get_cache_key` sorts the traits before joining
them, so two `generate` calls whose trait lists are permutations of
each other address the same cache entry. -/
theorem c5_cache_key_trait_order_invariant :
    ∀ (animal theme : String) (n : Int) (t1 t2 : List String),
      t1.Perm t2 →
      get_cache_key animal t1 theme n = get_cache_key animal t2 theme n := by
  intro animal theme n t1 t2 h
  unfold get_cache_key
  rw [pySorted_perm_eq h]

theorem c5_witness :
    List.Perm ["b", "a"] ["a", "b"] ∧
    get_cache_key "dog" ["b", "a"] "mythology" 3
      = get_cache_key "dog" ["a", "b"] "mythology" 3 :=
  ⟨by decide,
    c5_cache_key_trait_order_invariant "dog" "mythology" 3 ["b", "a"] ["a", "b"]
      (by decide)⟩

theorem validate_inputs_error_shape {animal traits num_names : PyValue}
    {e : PyExc} (h : validate_inputs animal traits num_names = .error e) :
    ∃ m, e = .valueError m := by
  cases animal with
  | vStr s =>
    simp only [validate_inputs] at h
    by_cases hs : s = ""
    · rw [if_pos hs] at h; cases h; exact ⟨_, rfl⟩
    · rw [if_neg hs] at h
      cases traits with
      | vList xs =>
        cases num_names with
        | vInt m =>
          dsimp only at h
          by_cases hm : m < 1 ∨ m > 10
          · rw [if_pos hm] at h; cases h; exact ⟨_, rfl⟩
          · rw [if_neg hm] at h; exact absurd h (by simp)
        | vStr s2 => cases h; exact ⟨_, rfl⟩
        | vList l2 => cases h; exact ⟨_, rfl⟩
        | vNone => cases h; exact ⟨_, rfl⟩
      | vStr s2 => cases h; exact ⟨_, rfl⟩
      | vInt m => cases h; exact ⟨_, rfl⟩
      | vNone => cases h; exact ⟨_, rfl⟩
  | vInt m => cases h; exact ⟨_, rfl⟩
  | vList l => cases h; exact ⟨_, rfl⟩
  | vNone => cases h; exact ⟨_, rfl⟩

theorem validate_inputs_ok_shape {animal traits num_names : PyValue}
    {a : String} {ts : List String} {n : Int}
    (h : validate_inputs animal traits num_names = .ok (a, ts, n)) :
    animal = .vStr a ∧ a ≠ "" ∧ traits = .vList ts ∧ num_names = .vInt n ∧
      1 ≤ n ∧ n ≤ 10 := by
  cases animal with
  | vStr s =>
    simp only [validate_inputs] at h
    by_cases hs : s = ""
    · rw [if_pos hs] at h; exact absurd h (by simp)
    · rw [if_neg hs] at h
      cases traits with
      | vList xs =>
        cases num_names with
        | vInt m =>
          dsimp only at h
          by_cases hm : m < 1 ∨ m > 10
          · rw [if_pos hm] at h; exact absurd h (by simp)
          · rw [if_neg hm] at h
            simp only [Except.ok.injEq, Prod.mk.injEq] at h
            obtain ⟨rfl, rfl, rfl⟩ := h
            push_neg at hm
            exact ⟨rfl, hs, rfl, rfl, hm.1, hm.2⟩
        | vStr s2 => cases h
        | vList l2 => cases h
        | vNone => cases h
      | vStr s2 => cases h
      | vInt m => cases h
      | vNone => cases h
  | vInt m => cases h
  | vList l => cases h
  | vNone => cases h

theorem validate_inputs_valid {a : String} (ts : List String) {n : Int}
    (ha : a ≠ "") (h1 : 1 ≤ n) (h2 : n ≤ 10) :
    validate_inputs (.vStr a) (.vList ts) (.vInt n) = .ok (a, ts, n) := by
  simp only [validate_inputs]
  rw [if_neg ha, if_neg (by omega : ¬(n < 1 ∨ n > 10))]

/-- C2: a `generate_pet_names` call whose arguments have invalid shape
(animal empty or not a string, traits not a list, or `num_names` not an
int in `[1, 10]`) raises `ValueError` at once, with the cache untouched
and zero outbound attempts — so no cache access and no dispatch. -/
theorem c2_invalid_shape_rejected_locally :
    ∀ (c : Cache) (now : Nat) (env : Nat → AttemptOutcome)
      (animal traits num_names : PyValue) (theme : String),
      (animal = .vStr "" ∨ (∀ s, animal ≠ .vStr s) ∨
        (∀ xs, traits ≠ .vList xs) ∨ (∀ n : Int, num_names ≠ .vInt n) ∨
        (∃ n : Int, num_names = .vInt n ∧ (n < 1 ∨ n > 10))) →
      ∃ m, generate_pet_names c now env animal traits theme num_names
        = ⟨.error (.valueError m), c, 0⟩ := by
  intro c now env animal traits num_names theme h
  cases hv : validate_inputs animal traits num_names with
  | error e =>
    obtain ⟨m, rfl⟩ := validate_inputs_error_shape hv
    refine ⟨m, ?_⟩
    unfold generate_pet_names
    rw [hv]
  | ok triple =>
    obtain ⟨a, ts, n⟩ := triple
    obtain ⟨ha1, ha2, ht, hn, hlo, hhi⟩ := validate_inputs_ok_shape hv
    exfalso
    rcases h with h | h | h | h | ⟨n2, hn2, hrange⟩
    · rw [h] at ha1
      injection ha1 with h4
      exact ha2 h4.symm
    · exact h a ha1
    · exact h ts ht
    · exact h n hn
    · rw [hn2] at hn
      injection hn with h4
      omega

theorem c2_witness :
    ∃ m, generate_pet_names [] 0 envNet (.vStr "dog") (.vList []) "" (.vInt 0)
      = ⟨.error (.valueError m), [], 0⟩ :=
  c2_invalid_shape_rejected_locally [] 0 envNet (.vStr "dog") (.vList [])
    (.vInt 0) ""
    (Or.inr (Or.inr (Or.inr (Or.inr ⟨0, rfl, Or.inl (by decide)⟩))))

theorem cacheFind_insert_self (c : Cache) (k : String) (e : CacheEntry) :
    cacheFind (cacheInsert c k e) k = some e := by
  induction c with
  | nil => simp [cacheInsert, cacheFind]
  | cons p rest ih =>
    obtain ⟨k1, e1⟩ := p
    by_cases hk : k1 = k
    · simp [cacheInsert, cacheFind, hk]
    · simp [cacheInsert, cacheFind, hk, ih]

theorem cacheFind_mem {c : Cache} {k : String} {e : CacheEntry}
    (h : cacheFind c k = some e) : (k, e) ∈ c := by
  induction c with
  | nil => simp [cacheFind] at h
  | cons p rest ih =>
    obtain ⟨k1, e1⟩ := p
    by_cases hk : k1 = k
    · rw [cacheFind, if_pos hk] at h
      cases h
      subst hk
      exact List.mem_cons_self _ _
    · rw [cacheFind, if_neg hk] at h
      exact List.mem_cons_of_mem _ (ih h)

theorem mem_cacheErase {c : Cache} {k : String} {p : String × CacheEntry}
    (h : p ∈ cacheErase c k) : p ∈ c := by
  induction c with
  | nil => simp [cacheErase] at h
  | cons q rest ih =>
    obtain ⟨k1, e1⟩ := q
    by_cases hk : k1 = k
    · rw [cacheErase, if_pos hk] at h
      exact List.mem_cons_of_mem _ h
    · rw [cacheErase, if_neg hk] at h
      rcases List.mem_cons.mp h with h1 | h1
      · exact h1 ▸ List.mem_cons_self _ _
      · exact List.mem_cons_of_mem _ (ih h1)

theorem mem_cacheInsert {c : Cache} {k : String} {e : CacheEntry}
    {p : String × CacheEntry} (h : p ∈ cacheInsert c k e) :
    p = (k, e) ∨ p ∈ c := by
  induction c with
  | nil =>
    rw [cacheInsert] at h
    rcases List.mem_cons.mp h with h1 | h1
    · exact Or.inl h1
    · simp at h1
  | cons q rest ih =>
    obtain ⟨k1, e1⟩ := q
    by_cases hk : k1 = k
    · rw [cacheInsert, if_pos hk] at h
      rcases List.mem_cons.mp h with h1 | h1
      · exact Or.inl (by rw [h1, hk])
      · exact Or.inr (List.mem_cons_of_mem _ h1)
    · rw [cacheInsert, if_neg hk] at h
      rcases List.mem_cons.mp h with h1 | h1
      · exact Or.inr (h1 ▸ List.mem_cons_self _ _)
      · rcases ih h1 with h2 | h2
        · exact Or.inl h2
        · exact Or.inr (List.mem_cons_of_mem _ h2)

theorem get_from_cache_hit {c : Cache} {key : String} {now : Nat}
    {entry : CacheEntry} (hf : cacheFind c key = some entry)
    (hv : now - entry.timestamp < cache_ttl) :
    get_from_cache c key now = (some entry.data, c) := by
  unfold get_from_cache
  rw [hf]
  dsimp only
  rw [if_pos (show is_cache_valid now entry = true from decide_eq_true hv)]

theorem get_from_cache_expired {c : Cache} {key : String} {now : Nat}
    {entry : CacheEntry} (hf : cacheFind c key = some entry)
    (hv : cache_ttl ≤ now - entry.timestamp) :
    get_from_cache c key now = (none, cacheErase c key) := by
  unfold get_from_cache
  rw [hf]
  dsimp only
  have hb : is_cache_valid now entry = false := decide_eq_false (not_lt.mpr hv)
  simp [hb]

theorem get_from_cache_snd_cases (c : Cache) (key : String) (now : Nat) :
    (get_from_cache c key now).2 = c ∨
      (∃ entry, cacheFind c key = some entry ∧
        cache_ttl ≤ now - entry.timestamp ∧
        (get_from_cache c key now).2 = cacheErase c key) := by
  unfold get_from_cache
  cases hf : cacheFind c key with
  | none => exact Or.inl rfl
  | some entry =>
    dsimp only
    by_cases hv : is_cache_valid now entry
    · rw [if_pos hv]; exact Or.inl rfl
    · rw [if_neg hv]
      refine Or.inr ⟨entry, rfl, ?_, rfl⟩
      simp only [is_cache_valid, decide_eq_true_eq] at hv
      omega

theorem tenacityLoop_snd_ge (env : Nat → AttemptOutcome) :
    ∀ (fuel attempt : Nat), attempt ≤ (tenacityLoop env attempt fuel).2 := by
  intro fuel
  induction fuel with
  | zero =>
    intro a
    unfold tenacityLoop
    cases h : api_request_body (env a) with
    | ok content => simp
    | error e =>
      by_cases hr : tenacityRetryable e
      · simp [hr]
      · simp [hr]
  | succ f ih =>
    intro a
    unfold tenacityLoop
    cases h : api_request_body (env a) with
    | ok content => simp
    | error e =>
      by_cases hr : tenacityRetryable e
      · simp only [hr, if_true]
        exact le_trans (Nat.le_succ a) (ih (a + 1))
      · simp [hr]

theorem gen_dispatch_attempts_pos (c2 : Cache) (key : String) (now : Nat)
    (env : Nat → AttemptOutcome) :
    1 ≤ (gen_dispatch c2 key now env).attempts := by
  have h1 : 1 ≤ (make_api_request env).2 := tenacityLoop_snd_ge env 2 1
  unfold gen_dispatch
  rcases hm : make_api_request env with ⟨r, k⟩
  rw [hm] at h1
  cases r with
  | error e => exact h1
  | ok content =>
    cases hp : parse_response content with
    | error e => simp [hp]; exact h1
    | ok rs => simp [hp]; exact h1

theorem gen_dispatch_error_cache {c2 : Cache} {key : String} {now : Nat}
    {env : Nat → AttemptOutcome} {e : PyExc}
    (h : (gen_dispatch c2 key now env).result = .error e) :
    (gen_dispatch c2 key now env).cache = c2 := by
  unfold gen_dispatch at h ⊢
  rcases hm : make_api_request env with ⟨r, k⟩
  rw [hm] at h
  cases r with
  | error e2 => rfl
  | ok content =>
    dsimp only at h ⊢
    cases hp : parse_response content with
    | error e2 => rfl
    | ok rs => rw [hp] at h; cases h

theorem gen_dispatch_ok_shape {c2 : Cache} {key : String} {now : Nat}
    {env : Nat → AttemptOutcome} {rs : List PetNameResult}
    (h : (gen_dispatch c2 key now env).result = .ok rs) :
    rs ≠ [] ∧
      (gen_dispatch c2 key now env).cache = cacheInsert c2 key ⟨rs, now⟩ := by
  unfold gen_dispatch at h ⊢
  rcases hm : make_api_request env with ⟨r, k⟩
  rw [hm] at h
  cases r with
  | error e2 => cases h
  | ok content =>
    dsimp only at h ⊢
    cases hp : parse_response content with
    | error e2 => rw [hp] at h; cases h
    | ok rs2 =>
      rw [hp] at h
      dsimp only at h
      cases h
      exact ⟨parse_response_ok_ne_nil hp, rfl⟩

theorem generate_valid_shape (c : Cache) (now : Nat)
    (env : Nat → AttemptOutcome) (a : String) (ts : List String)
    (th : String) (n : Int) (ha : a ≠ "") (h1 : 1 ≤ n) (h2 : n ≤ 10) :
    generate_pet_names c now env (.vStr a) (.vList ts) th (.vInt n)
      = match (get_from_cache c (get_cache_key a ts th n) now).1 with
        | some cached =>
          if cached.isEmpty then
            gen_dispatch (get_from_cache c (get_cache_key a ts th n) now).2
              (get_cache_key a ts th n) now env
          else ⟨.ok cached, (get_from_cache c (get_cache_key a ts th n) now).2, 0⟩
        | none =>
          gen_dispatch (get_from_cache c (get_cache_key a ts th n) now).2
            (get_cache_key a ts th n) now env := by
  unfold generate_pet_names
  rw [validate_inputs_valid ts ha h1 h2]

theorem generate_ok_dispatch_shape {c : Cache} {now : Nat}
    {env : Nat → AttemptOutcome} {a : String} {ts : List String}
    {th : String} {n : Int} {rs : List PetNameResult}
    (ha : a ≠ "") (h1 : 1 ≤ n) (h2 : n ≤ 10)
    (hok : (generate_pet_names c now env (.vStr a) (.vList ts) th (.vInt n)).result
      = .ok rs)
    (hatt : (generate_pet_names c now env (.vStr a) (.vList ts) th (.vInt n)).attempts
      ≠ 0) :
    rs ≠ [] ∧
      (generate_pet_names c now env (.vStr a) (.vList ts) th (.vInt n)).cache
        = cacheInsert (get_from_cache c (get_cache_key a ts th n) now).2
            (get_cache_key a ts th n) ⟨rs, now⟩ := by
  rw [generate_valid_shape c now env a ts th n ha h1 h2] at hok hatt ⊢
  cases hl : (get_from_cache c (get_cache_key a ts th n) now).1 with
  | some cached =>
    rw [hl] at hok hatt
    dsimp only at hok hatt ⊢
    by_cases hce : cached.isEmpty
    · rw [if_pos hce] at hok hatt ⊢
      exact gen_dispatch_ok_shape hok
    · rw [if_neg hce] at hatt
      exact absurd rfl hatt
  | none =>
    rw [hl] at hok hatt
    exact gen_dispatch_ok_shape hok

/-- C9: after input validation passes, a `generate_pet_names` call that
raises leaves the cache exactly as the lookup left it — which is the
original cache, except that an already-expired entry for the same
fingerprint may have been lazily evicted — and a new entry is written
only by a call that dispatched and whose dispatch and parse both
succeeded. -/
theorem c9_cache_write_only_on_success :
    ∀ (c : Cache) (now : Nat) (env : Nat → AttemptOutcome) (a : String)
      (ts : List String) (th : String) (n : Int),
      a ≠ "" → 1 ≤ n → n ≤ 10 →
      (∀ e, (generate_pet_names c now env (.vStr a) (.vList ts) th (.vInt n)).result
          = .error e →
        (generate_pet_names c now env (.vStr a) (.vList ts) th (.vInt n)).cache
          = (get_from_cache c (get_cache_key a ts th n) now).2) ∧
      (∀ rs, (generate_pet_names c now env (.vStr a) (.vList ts) th (.vInt n)).result
          = .ok rs →
        (generate_pet_names c now env (.vStr a) (.vList ts) th (.vInt n)).attempts ≠ 0 →
        (generate_pet_names c now env (.vStr a) (.vList ts) th (.vInt n)).cache
          = cacheInsert (get_from_cache c (get_cache_key a ts th n) now).2
              (get_cache_key a ts th n) ⟨rs, now⟩) ∧
      ((get_from_cache c (get_cache_key a ts th n) now).2 = c ∨
        (∃ entry, cacheFind c (get_cache_key a ts th n) = some entry ∧
          cache_ttl ≤ now - entry.timestamp ∧
          (get_from_cache c (get_cache_key a ts th n) now).2
            = cacheErase c (get_cache_key a ts th n))) := by
  intro c now env a ts th n ha h1 h2
  refine ⟨?_, fun rs hok hatt => (generate_ok_dispatch_shape ha h1 h2 hok hatt).2,
    get_from_cache_snd_cases c (get_cache_key a ts th n) now⟩
  intro e he
  rw [generate_valid_shape c now env a ts th n ha h1 h2] at he ⊢
  cases hl : (get_from_cache c (get_cache_key a ts th n) now).1 with
  | some cached =>
    rw [hl] at he
    dsimp only at he ⊢
    by_cases hce : cached.isEmpty
    · rw [if_pos hce] at he ⊢
      exact gen_dispatch_error_cache he
    · rw [if_neg hce] at he
      cases he
  | none =>
    rw [hl] at he
    exact gen_dispatch_error_cache he

theorem c9_witness :
    (generate_pet_names [] 0 envNet (.vStr "dog") (.vList ["friendly"]) "" (.vInt 1)).result
      = .error (.openRouterError "Network error: Connection refused") ∧
    (generate_pet_names [] 0 envNet (.vStr "dog") (.vList ["friendly"]) "" (.vInt 1)).cache
      = (get_from_cache [] (get_cache_key "dog" ["friendly"] "" 1) 0).2 :=
  ⟨by decide,
    (c9_cache_write_only_on_success [] 0 envNet "dog" ["friendly"] "" 1
      (by decide) (by decide) (by decide)).1
      (.openRouterError "Network error: Connection refused") (by decide)⟩

/-- C6: cache lookup with the 3600-second TTL: a stored fingerprint is
returned while `now - stored_timestamp < 3600` and is reported as a
miss and removed once `now - stored_timestamp ≥ 3600`; consequently a
second identical `generate` call within the TTL returns the first
call's results with zero outbound attempts, while one at or past the
TTL dispatches afresh. -/
theorem c6_cache_ttl_semantics :
    (∀ (c : Cache) (key : String) (now : Nat) (entry : CacheEntry),
      cacheFind c key = some entry → now - entry.timestamp < cache_ttl →
      get_from_cache c key now = (some entry.data, c)) ∧
    (∀ (c : Cache) (key : String) (now : Nat) (entry : CacheEntry),
      cacheFind c key = some entry → cache_ttl ≤ now - entry.timestamp →
      get_from_cache c key now = (none, cacheErase c key)) ∧
    (∀ (c : Cache) (now1 now2 : Nat) (env1 env2 : Nat → AttemptOutcome)
      (a : String) (ts : List String) (th : String) (n : Int)
      (rs : List PetNameResult),
      a ≠ "" → 1 ≤ n → n ≤ 10 →
      (generate_pet_names c now1 env1 (.vStr a) (.vList ts) th (.vInt n)).result
        = .ok rs →
      (generate_pet_names c now1 env1 (.vStr a) (.vList ts) th (.vInt n)).attempts ≠ 0 →
      now2 - now1 < cache_ttl →
      generate_pet_names
          (generate_pet_names c now1 env1 (.vStr a) (.vList ts) th (.vInt n)).cache
          now2 env2 (.vStr a) (.vList ts) th (.vInt n)
        = ⟨.ok rs,
            (generate_pet_names c now1 env1 (.vStr a) (.vList ts) th (.vInt n)).cache,
            0⟩) ∧
    (∀ (c : Cache) (now1 now2 : Nat) (env1 env2 : Nat → AttemptOutcome)
      (a : String) (ts : List String) (th : String) (n : Int)
      (rs : List PetNameResult),
      a ≠ "" → 1 ≤ n → n ≤ 10 →
      (generate_pet_names c now1 env1 (.vStr a) (.vList ts) th (.vInt n)).result
        = .ok rs →
      (generate_pet_names c now1 env1 (.vStr a) (.vList ts) th (.vInt n)).attempts ≠ 0 →
      cache_ttl ≤ now2 - now1 →
      1 ≤ (generate_pet_names
          (generate_pet_names c now1 env1 (.vStr a) (.vList ts) th (.vInt n)).cache
          now2 env2 (.vStr a) (.vList ts) th (.vInt n)).attempts) := by
  refine ⟨fun c key now entry hf hv => get_from_cache_hit hf hv,
    fun c key now entry hf hv => get_from_cache_expired hf hv, ?_, ?_⟩
  · intro c now1 now2 env1 env2 a ts th n rs ha h1 h2 hok hatt httl
    obtain ⟨hne, hcache⟩ := generate_ok_dispatch_shape ha h1 h2 hok hatt
    have hfind : cacheFind
        (generate_pet_names c now1 env1 (.vStr a) (.vList ts) th (.vInt n)).cache
        (get_cache_key a ts th n) = some ⟨rs, now1⟩ := by
      rw [hcache]
      exact cacheFind_insert_self _ _ _
    have hlook := get_from_cache_hit hfind httl
    rw [generate_valid_shape _ now2 env2 a ts th n ha h1 h2, hlook]
    dsimp only
    have hie : rs.isEmpty = false := by
      cases hrs : rs with
      | nil => exact absurd hrs hne
      | cons x xs => rfl
    rw [hie]
    simp
  · intro c now1 now2 env1 env2 a ts th n rs ha h1 h2 hok hatt httl
    obtain ⟨hne, hcache⟩ := generate_ok_dispatch_shape ha h1 h2 hok hatt
    have hfind : cacheFind
        (generate_pet_names c now1 env1 (.vStr a) (.vList ts) th (.vInt n)).cache
        (get_cache_key a ts th n) = some ⟨rs, now1⟩ := by
      rw [hcache]
      exact cacheFind_insert_self _ _ _
    have hlook := get_from_cache_expired hfind httl
    rw [generate_valid_shape _ now2 env2 a ts th n ha h1 h2, hlook]
    exact gen_dispatch_attempts_pos _ _ _ _

theorem c6_witness :
    get_from_cache [("k", ⟨[⟨"Rex", "strong"⟩], 5⟩)] "k" 10
      = (some [⟨"Rex", "strong"⟩], [("k", ⟨[⟨"Rex", "strong"⟩], 5⟩)]) ∧
    get_from_cache [("k", ⟨[⟨"Rex", "strong"⟩], 5⟩)] "k" 9000
      = (none, cacheErase [("k", ⟨[⟨"Rex", "strong"⟩], 5⟩)] "k") ∧
    generate_pet_names
        (generate_pet_names [] 0 envOk (.vStr "dog") (.vList ["friendly"]) "" (.vInt 1)).cache
        100 envNet (.vStr "dog") (.vList ["friendly"]) "" (.vInt 1)
      = ⟨.ok [⟨"Rex", "strong"⟩],
          (generate_pet_names [] 0 envOk (.vStr "dog") (.vList ["friendly"]) "" (.vInt 1)).cache,
          0⟩ ∧
    1 ≤ (generate_pet_names
        (generate_pet_names [] 0 envOk (.vStr "dog") (.vList ["friendly"]) "" (.vInt 1)).cache
        3600 envNet (.vStr "dog") (.vList ["friendly"]) "" (.vInt 1)).attempts :=
  ⟨c6_cache_ttl_semantics.1 _ "k" 10 ⟨[⟨"Rex", "strong"⟩], 5⟩ (by decide) (by decide),
    c6_cache_ttl_semantics.2.1 _ "k" 9000 ⟨[⟨"Rex", "strong"⟩], 5⟩ (by decide) (by decide),
    c6_cache_ttl_semantics.2.2.1 [] 0 100 envOk envNet "dog" ["friendly"] "" 1
      [⟨"Rex", "strong"⟩] (by decide) (by decide) (by decide) (by decide)
      (by decide) (by decide),
    c6_cache_ttl_semantics.2.2.2 [] 0 3600 envOk envNet "dog" ["friendly"] "" 1
      [⟨"Rex", "strong"⟩] (by decide) (by decide) (by decide) (by decide)
      (by decide) (by decide)⟩

theorem gen_dispatch_preserves (c2 : Cache) (key : String) (now : Nat)
    (env : Nat → AttemptOutcome) (hinv : CacheMemInv c2) :
    CacheMemInv (gen_dispatch c2 key now env).cache := by
  intro p hp
  cases hres : (gen_dispatch c2 key now env).result with
  | error e =>
    rw [gen_dispatch_error_cache hres] at hp
    exact hinv p hp
  | ok rs =>
    obtain ⟨hne, hcache⟩ := gen_dispatch_ok_shape hres
    rw [hcache] at hp
    rcases mem_cacheInsert hp with h1 | h1
    · rw [h1]; exact hne
    · exact hinv p h1

theorem generate_preserves (c : Cache) (now : Nat) (env : Nat → AttemptOutcome)
    (animal traits : PyValue) (theme : String) (num_names : PyValue)
    (hinv : CacheMemInv c) :
    CacheMemInv (generate_pet_names c now env animal traits theme num_names).cache := by
  unfold generate_pet_names
  cases hv : validate_inputs animal traits num_names with
  | error e => exact hinv
  | ok triple =>
    obtain ⟨a, ts, n⟩ := triple
    dsimp only
    have hlinv : CacheMemInv (get_from_cache c (get_cache_key a ts theme n) now).2 := by
      rcases get_from_cache_snd_cases c (get_cache_key a ts theme n) now with
        h | ⟨entry, _, _, h⟩
      · rw [h]; exact hinv
      · rw [h]; intro p hp; exact hinv p (mem_cacheErase hp)
    cases hl : (get_from_cache c (get_cache_key a ts theme n) now).1 with
    | some cached =>
      dsimp only
      by_cases hce : cached.isEmpty
      · rw [if_pos hce]; exact gen_dispatch_preserves _ _ _ _ hlinv
      · rw [if_neg hce]; exact hlinv
    | none => exact gen_dispatch_preserves _ _ _ _ hlinv

theorem health_check_snd (c : Cache) (now : Nat) (env : Nat → AttemptOutcome)
    (cfg : OpenRouterConfig) :
    (health_check c now env cfg).2
      = (generate_pet_names c now env (.vStr "dog") (.vList ["friendly"]) ""
          (.vInt 1)).cache := by
  unfold health_check health_check_record
  cases (generate_pet_names c now env (.vStr "dog") (.vList ["friendly"]) ""
      (.vInt 1)).result with
  | ok names => rfl
  | error e => rfl

theorem reachable_memInv : ∀ c : Cache, Reachable c → CacheMemInv c := by
  intro c h
  induction h with
  | init => intro p hp; simp at hp
  | gen c2 now env animal traits theme num_names _ ih =>
    exact generate_preserves c2 now env animal traits theme num_names ih
  | health c2 now env cfg _ ih =>
    rw [health_check_snd]
    exact generate_preserves _ _ _ _ _ _ _ ih

/-- C10: in every cache state reachable by any sequence of
`generate_pet_names` and `health_check` calls, every stored entry holds
a non-empty result list (entries are written only from a successful
`_parse_response`), so the Python truthiness test `if cached_result:`
never treats a stored, unexpired entry as a miss: `generate` returns it
with zero outbound attempts. -/
theorem c10_cache_entries_nonempty :
    ∀ c : Cache, Reachable c →
      (∀ key entry, cacheFind c key = some entry → entry.data ≠ []) ∧
      (∀ (now : Nat) (env : Nat → AttemptOutcome) (a : String)
        (ts : List String) (th : String) (n : Int) (entry : CacheEntry),
        a ≠ "" → 1 ≤ n → n ≤ 10 →
        cacheFind c (get_cache_key a ts th n) = some entry →
        now - entry.timestamp < cache_ttl →
        generate_pet_names c now env (.vStr a) (.vList ts) th (.vInt n)
          = ⟨.ok entry.data, c, 0⟩) := by
  intro c hreach
  have hinv := reachable_memInv c hreach
  refine ⟨fun key entry hf => hinv (key, entry) (cacheFind_mem hf), ?_⟩
  intro now env a ts th n entry ha h1 h2 hf hvalid
  have hlook := get_from_cache_hit hf hvalid
  rw [generate_valid_shape c now env a ts th n ha h1 h2, hlook]
  dsimp only
  have hne : entry.data ≠ [] :=
    hinv (get_cache_key a ts th n, entry) (cacheFind_mem hf)
  have hie : entry.data.isEmpty = false := by
    cases hdata : entry.data with
    | nil => exact absurd hdata hne
    | cons x xs => rfl
  rw [hie]
  simp

theorem c10_witness :
    cacheFind exampleCache "dog:friendly::1" = some ⟨[⟨"Rex", "strong"⟩], 0⟩ ∧
    (⟨[⟨"Rex", "strong"⟩], 0⟩ : CacheEntry).data ≠ [] :=
  ⟨by decide,
    (c10_cache_entries_nonempty exampleCache
        (Reachable.gen [] 0 envOk (.vStr "dog") (.vList ["friendly"]) ""
          (.vInt 1) Reachable.init)).1
      "dog:friendly::1" ⟨[⟨"Rex", "strong"⟩], 0⟩ (by decide)⟩

/-- C7: `health_check` never raises: whatever the probe call does, it
returns a record tagged "healthy" or "unhealthy" that always carries
the model identifier and environment value, and when the probe raises,
the exception text is captured in the record's `error` field instead of
propagating. -/
theorem c7_health_check_never_raises :
    ∀ (c : Cache) (now : Nat) (env : Nat → AttemptOutcome)
      (cfg : OpenRouterConfig),
      ((health_check c now env cfg).1.status = "healthy" ∨
        (health_check c now env cfg).1.status = "unhealthy") ∧
      (health_check c now env cfg).1.model = cfg.model ∧
      (health_check c now env cfg).1.environment = cfg.environment.value ∧
      (∀ e, (generate_pet_names c now env (.vStr "dog") (.vList ["friendly"]) ""
            (.vInt 1)).result = .error e →
        (health_check c now env cfg).1.status = "unhealthy" ∧
        (health_check c now env cfg).1.error = some (pyExcMsg e)) := by
  intro c now env cfg
  unfold health_check health_check_record
  cases hg : (generate_pet_names c now env (.vStr "dog") (.vList ["friendly"]) ""
      (.vInt 1)).result with
  | ok names =>
    refine ⟨Or.inl rfl, rfl, rfl, ?_⟩
    intro e he
    cases he
  | error e2 =>
    refine ⟨Or.inr rfl, rfl, rfl, ?_⟩
    intro e he
    cases he
    exact ⟨rfl, rfl⟩

theorem c7_witness :
    (health_check [] 0 env401 { api_key := "k" }).1.status = "unhealthy" ∧
    (health_check [] 0 env401 { api_key := "k" }).1.error
      = some (pyExcMsg (.authenticationError "Authentication failed: Invalid key")) :=
  (c7_health_check_never_raises [] 0 env401 { api_key := "k" }).2.2.2
    (.authenticationError "Authentication failed: Invalid key") (by decide)

theorem validate_config_out_of_range {cfg : OpenRouterConfig}
    (h : cfg.api_key = "" ∨ cfg.temperature < 0 ∨ cfg.temperature > 2 ∨
      cfg.top_p < 0 ∨ cfg.top_p > 1 ∨ cfg.max_tokens < 1 ∨ cfg.max_tokens > 4096) :
    ∃ m, validate_config cfg = .error (.valueError m) := by
  unfold validate_config
  by_cases h1 : cfg.api_key = ""
  · rw [if_pos h1]; exact ⟨_, rfl⟩
  · rw [if_neg h1]
    by_cases h2 : cfg.temperature < 0 ∨ cfg.temperature > 2
    · rw [if_pos h2]; exact ⟨_, rfl⟩
    · rw [if_neg h2]
      by_cases h3 : cfg.top_p < 0 ∨ cfg.top_p > 1
      · rw [if_pos h3]; exact ⟨_, rfl⟩
      · rw [if_neg h3]
        by_cases h4 : cfg.max_tokens < 1 ∨ cfg.max_tokens > 4096
        · rw [if_pos h4]; exact ⟨_, rfl⟩
        · exfalso
          rcases h with h | h | h | h | h | h | h
          · exact h1 h
          · exact h2 (Or.inl h)
          · exact h2 (Or.inr h)
          · exact h3 (Or.inl h)
          · exact h3 (Or.inr h)
          · exact h4 (Or.inl h)
          · exact h4 (Or.inr h)

/-- C8: service initialization fails fast with `ValueError` before the
service exists (and thus before any request can be served) when the
credential is missing or empty, and when the built or supplied
configuration has temperature outside `[0, 2]`, top-p outside `[0, 1]`
or max-tokens outside `[1, 4096]`; the failed construction has no other
effect — no configuration object is produced. -/
theorem c8_config_validation_fails_fast :
    (∀ env : EnvInput,
      env.openrouter_api_key = none ∨ env.openrouter_api_key = some "" →
      ∃ m, service_init env = .error (.valueError m)) ∧
    (∀ cfg : OpenRouterConfig,
      cfg.api_key = "" ∨ cfg.temperature < 0 ∨ cfg.temperature > 2 ∨
        cfg.top_p < 0 ∨ cfg.top_p > 1 ∨
        cfg.max_tokens < 1 ∨ cfg.max_tokens > 4096 →
      ∃ m, service_init_with cfg = .error (.valueError m)) ∧
    (∀ (env : EnvInput) (cfg : OpenRouterConfig),
      create_config_from_env env = .ok cfg →
      (cfg.temperature < 0 ∨ cfg.temperature > 2 ∨ cfg.top_p < 0 ∨
        cfg.top_p > 1 ∨ cfg.max_tokens < 1 ∨ cfg.max_tokens > 4096) →
      ∃ m, service_init env = .error (.valueError m)) := by
  have hwith : ∀ cfg : OpenRouterConfig,
      cfg.api_key = "" ∨ cfg.temperature < 0 ∨ cfg.temperature > 2 ∨
        cfg.top_p < 0 ∨ cfg.top_p > 1 ∨
        cfg.max_tokens < 1 ∨ cfg.max_tokens > 4096 →
      ∃ m, service_init_with cfg = .error (.valueError m) := by
    intro cfg h
    obtain ⟨m, hm⟩ := validate_config_out_of_range h
    refine ⟨m, ?_⟩
    unfold service_init_with
    rw [hm]
  refine ⟨?_, hwith, ?_⟩
  · intro env h
    unfold service_init create_config_from_env
    rcases h with h | h
    · rw [h]; exact ⟨_, rfl⟩
    · rw [h]
      dsimp only
      rw [if_pos rfl]
      exact ⟨_, rfl⟩
  · intro env cfg hc h
    obtain ⟨m, hm⟩ := hwith cfg (Or.inr h)
    refine ⟨m, ?_⟩
    unfold service_init
    rw [hc]
    dsimp only
    exact hm

theorem c8_witness :
    (∃ m, service_init {} = .error (.valueError m)) ∧
    (∃ m, service_init_with { api_key := "k", temperature := 3 }
      = .error (.valueError m)) :=
  ⟨c8_config_validation_fails_fast.1 {} (Or.inl rfl),
    c8_config_validation_fails_fast.2.1 { api_key := "k", temperature := 3 }
      (Or.inr (Or.inr (Or.inl (by norm_num))))⟩

/-- C1: evidence that the dispatcher does NOT retry network failures:
`_make_api_request` catches `httpx.RequestError` inside its own body
and re-raises it as `OpenRouterError`, so the tenacity predicate
`retry_if_exception_type((httpx.RequestError, RateLimitError))` never
matches a network failure.  A dispatch whose first two attempts would
fail with a network error and whose third would succeed instead raises
`OpenRouterError("Network error: ...")` after exactly one attempt,
contradicting the claim (and the decorator's own declared policy);
the claim's remaining parts hold: HTTP 401 fails immediately as
`AuthenticationError` after one attempt, and HTTP 429 is retried up to
the 3-attempt cap. -/
theorem c1_network_errors_escape_retry :
    make_api_request envNetNetOk
      = (.error (.openRouterError "Network error: Connection refused"), 1) ∧
    make_api_request envNet
      = (.error (.openRouterError "Network error: Connection refused"), 1) ∧
    make_api_request env401
      = (.error (.authenticationError "Authentication failed: Invalid key"), 1) ∧
    make_api_request envRateRateOk = (.ok okJson, 3) :=
  ⟨rfl, rfl, rfl, rfl⟩
